import Mathlib

/-!
Shallow embedding of the go-reuse package (package `reuse`): a facade of
listen/dial constructors that install a socket-option controller setting
address/port-reuse options at socket-creation time, plus an address
resolver dispatching a family tag to a typed-address parser.

External collaborators (the standard net library resolvers, the kernel
socket calls, the TLS layer) are modelled as oracle fields of environment
structures; the functions of the repository itself are translated
definition by definition from the Go source.
-/

namespace Reuse

/-- Errors produced by the embedded operations. `unknownNetwork` embeds
`net.UnknownNetworkError(network)` (it carries the offending tag);
`os` stands for an arbitrary error value coming from the standard
library or the kernel; `wrapResolve` embeds the wrapping
`fmt.Errorf("resolving local addr: %w", err)` performed by the
string-address dial variants. -/
inductive NetError where
  | unknownNetwork (tag : String)
  | os (msg : String)
  | wrapResolve (e : NetError)
deriving DecidableEq

/-- Typed local address, the result of resolution (`net.Addr` with the
four concrete types the resolver can produce: `*net.IPAddr`,
`*net.TCPAddr`, `*net.UDPAddr`, `*net.UnixAddr`). The payload is the
abstract datum delivered by the standard resolver. -/
inductive Addr where
  | ip (d : String)
  | tcp (d : String)
  | udp (d : String)
  | unix (d : String)
deriving DecidableEq

/-- Oracle environment for the four standard-library resolvers used by
the repository (`net.ResolveIPAddr`, `net.ResolveTCPAddr`,
`net.ResolveUDPAddr`, `net.ResolveUnixAddr`). Each takes the network tag
and the textual address and either fails or yields the payload of an
address of its own concrete type, exactly as the library signatures
guarantee. -/
structure NetEnv where
  netResolveIPAddr : String → String → Except NetError String
  netResolveTCPAddr : String → String → Except NetError String
  netResolveUDPAddr : String → String → Except NetError String
  netResolveUnixAddr : String → String → Except NetError String

/-- Embeds `resolveIPAddr` of the source: `return net.ResolveIPAddr(network, address)`,
the typed result injected into `net.Addr`. -/
def resolveIPAddr (env : NetEnv) (network address : String) : Except NetError Addr :=
  (env.netResolveIPAddr network address).map Addr.ip

/-- Embeds `resolveTCPAddr` of the source. -/
def resolveTCPAddr (env : NetEnv) (network address : String) : Except NetError Addr :=
  (env.netResolveTCPAddr network address).map Addr.tcp

/-- Embeds `resolveUDPAddr` of the source. -/
def resolveUDPAddr (env : NetEnv) (network address : String) : Except NetError Addr :=
  (env.netResolveUDPAddr network address).map Addr.udp

/-- Embeds `resolveUnixAddr` of the source. -/
def resolveUnixAddr (env : NetEnv) (network address : String) : Except NetError Addr :=
  (env.netResolveUnixAddr network address).map Addr.unix

/-- The four resolution strategies the dispatch map can select. -/
inductive ResolveStrategy where
  | ipStrat
  | tcpStrat
  | udpStrat
  | unixStrat
deriving DecidableEq

/-- Embeds the `addrMapping` map literal of the source: a map from the
twelve family tags to the four resolution functions, represented as an
association list. -/
def addrMapping : List (String × ResolveStrategy) :=
  [("ip", .ipStrat), ("ip4", .ipStrat), ("ip6", .ipStrat),
   ("tcp", .tcpStrat), ("tcp4", .tcpStrat), ("tcp6", .tcpStrat),
   ("udp", .udpStrat), ("udp4", .udpStrat), ("udp6", .udpStrat),
   ("unix", .unixStrat), ("unixgram", .unixStrat), ("unixpacket", .unixStrat)]

/-- Interprets a strategy as the resolution function it names in the
source map. -/
def applyStrategy (env : NetEnv) : ResolveStrategy → String → String → Except NetError Addr
  | .ipStrat => resolveIPAddr env
  | .tcpStrat => resolveTCPAddr env
  | .udpStrat => resolveUDPAddr env
  | .unixStrat => resolveUnixAddr env

/-- Embeds `ResolveAddr` of the source: look the network tag up in
`addrMapping`; on a hit call the mapped resolution function with the
same network tag and the address; on a miss fail with
`net.UnknownNetworkError(network)`. -/
def ResolveAddr (env : NetEnv) (network address : String) : Except NetError Addr :=
  match addrMapping.lookup network with
  | some v => applyStrategy env v network address
  | none => .error (.unknownNetwork network)

/-- The twelve family tags enumerated in the source map, in order. -/
def familyTags : List String :=
  ["ip", "ip4", "ip6", "tcp", "tcp4", "tcp6",
   "udp", "udp4", "udp6", "unix", "unixgram", "unixpacket"]

/-- Whether an address value has the concrete type belonging to a
resolution strategy. -/
def strategyMatches : ResolveStrategy → Addr → Bool
  | .ipStrat, .ip _ => true
  | .tcpStrat, .tcp _ => true
  | .udpStrat, .udp _ => true
  | .unixStrat, .unix _ => true
  | _, _ => false

/-- Trivial resolver environment used to evaluate theorems at concrete
inputs: every resolver succeeds and hands back the address text. -/
def trivNetEnv : NetEnv where
  netResolveIPAddr := fun _ a => .ok a
  netResolveTCPAddr := fun _ a => .ok a
  netResolveUDPAddr := fun _ a => .ok a
  netResolveUnixAddr := fun _ a => .ok a

/-- Raw connection handle (`syscall.RawConn`). Its `Control` method
either fails without running the supplied callback (`bad e`), or runs
the callback on the raw descriptor (`good fd`). -/
inductive RawConn where
  | bad (e : NetError)
  | good (fd : Nat)
deriving DecidableEq

/-- Record of one `SetsockoptInt`-style invocation, for observing what
options a controller applied to a descriptor. -/
structure SetsockoptCall where
  fd : Nat
  level : Nat
  opt : Nat
  value : Nat
deriving DecidableEq

/-- Event in the life of a socket, used to observe the order of the
creation steps performed by the standard-library creation paths. -/
inductive Ev where
  | socketCreated (fd : Nat)
  | controlInvoked (fd : Nat)
  | bindListenDone (fd : Nat)
  | connectDone (fd : Nat)
  | socketClosed (fd : Nat)
deriving DecidableEq

/-- Oracle environment for the kernel and standard-library socket
operations the repository calls into: the option-set call of the
platform controller, socket creation for the generic and the typed
creation paths, bind/listen, connect (with the optional dial timeout),
obtaining a `syscall.RawConn` from a created listener, the TLS
handshake, and the textual rendering of non-nil typed addresses. -/
structure OsEnv where
  setsockoptInt : Nat → Nat → Nat → Nat → Option NetError
  newSocket : String → String → Except NetError Nat
  newSocketTyped : String → Option String → Except NetError Nat
  newConnSocket : String → Option Addr → String → Except NetError Nat
  bindListen : Nat → Option NetError
  connect : Nat → String → Option Nat → Option NetError
  syscallConn : Nat → Except NetError RawConn
  tlsHandshake : Nat → Option NetError
  renderTCPAddr : String → String
  renderUDPAddr : String → String
  renderIPAddr : String → String
  renderUnixAddr : String → String
  renderAddr : Addr → String

/-- The Windows socket-level constant `windows.SOL_SOCKET` (0xffff). -/
def SOL_SOCKET : Nat := 65535

/-- The Windows option constant `windows.SO_REUSEADDR` (0x0004). -/
def SO_REUSEADDR : Nat := 4

/-- Embeds `Control` of the platform controller source file: run
`c.Control` with a callback that sets `SO_REUSEADDR` to 1 at
`SOL_SOCKET` on the raw descriptor; if `c.Control` itself fails, return
its error (the callback never ran); otherwise return the error captured
from the option-set call by the closure into the named return value
(the short declaration in the `if` statement is not yet in scope inside
the closure, so the closure writes the named result). The second
component records the option-set invocations performed. -/
def Control (os : OsEnv) (network address : String) (c : RawConn) :
    Option NetError × List SetsockoptCall :=
  match c with
  | .bad e => (some e, [])
  | .good fd =>
      (os.setsockoptInt fd SOL_SOCKET SO_REUSEADDR 1,
       [⟨fd, SOL_SOCKET, SO_REUSEADDR, 1⟩])

/-- Modelled from the spec: contract of the external
`net.ListenConfig.Listen` / `net.ListenConfig.ListenPacket` creation
path with a control hook installed — the hook is invoked at the moment
the descriptor exists, before bind/listen, and a failure of the hook or
of bind/listen is cleaned up by the creation path itself, which closes
the socket and returns only the error. -/
def listenConfigListen (os : OsEnv)
    (ctrl : String → String → RawConn → Option NetError × List SetsockoptCall)
    (network address : String) :
    (Option Nat × Option NetError) × List Ev :=
  match os.newSocket network address with
  | .error e => ((none, some e), [])
  | .ok fd =>
    match (ctrl network address (.good fd)).1 with
    | some e => ((none, some e), [.socketCreated fd, .controlInvoked fd, .socketClosed fd])
    | none =>
      match os.bindListen fd with
      | some e => ((none, some e), [.socketCreated fd, .controlInvoked fd, .socketClosed fd])
      | none => ((some fd, none), [.socketCreated fd, .controlInvoked fd, .bindListenDone fd])

/-- Embeds `Listen` of the source: `listenConfig.Listen(ctx, network, address)`
where the package-level `listenConfig` installs `Control` as the hook. -/
def Listen (os : OsEnv) (network address : String) :
    (Option Nat × Option NetError) × List Ev :=
  listenConfigListen os (Control os) network address

/-- Embeds `ListenPacket` of the source:
`listenConfig.ListenPacket(ctx, network, address)` with the same hook. -/
def ListenPacket (os : OsEnv) (network address : String) :
    (Option Nat × Option NetError) × List Ev :=
  listenConfigListen os (Control os) network address

/-- Embeds `ListenTLS` of the source: perform `Listen`; on error return
only the error, otherwise wrap the listener in a TLS listener
(`tls.NewListener`, a pure wrapping with no socket effect). -/
def ListenTLS (os : OsEnv) (network address : String) :
    (Option Nat × Option NetError) × List Ev :=
  match Listen os network address with
  | ((none, some e), evs) => ((none, some e), evs)
  | r => r

/-- Modelled from the spec: contract of the external typed creation
paths `net.ListenTCP` / `net.ListenIP` / `net.ListenUnix` — create the
descriptor, bind (and for stream sockets listen); a creation failure is
cleaned up by the path itself; no control hook exists on this path. -/
def netListenTyped (os : OsEnv) (network : String) (laddr : Option String) :
    Except NetError Nat × List Ev :=
  match os.newSocketTyped network laddr with
  | .error e => (.error e, [])
  | .ok fd =>
    match os.bindListen fd with
    | some e => (.error e, [.socketCreated fd, .socketClosed fd])
    | none => (.ok fd, [.socketCreated fd, .bindListenDone fd])

/-- Shared embedding of the typed listen variants `ListenTCP`,
`ListenIP` and `ListenUnix` of the source, which are textually identical
up to the address type: call the typed standard creation path; on
failure return `(nil, err)`; obtain the `SyscallConn` of the created
listener, on failure return `(nil, err)`; then `err = Control(network, "", conn)`
and `return t, err` — the listener is returned together with whatever
error the controller produced. -/
def listenTypedThenControl (os : OsEnv) (network : String) (laddr : Option String) :
    (Option Nat × Option NetError) × List Ev :=
  match netListenTyped os network laddr with
  | (.error e, evs) => ((none, some e), evs)
  | (.ok fd, evs) =>
    match os.syscallConn fd with
    | .error e => ((none, some e), evs)
    | .ok conn => ((some fd, (Control os network "" conn).1), evs ++ [.controlInvoked fd])

/-- Embeds `ListenTCP` of the source. -/
def ListenTCP (os : OsEnv) (network : String) (laddr : Option String) :
    (Option Nat × Option NetError) × List Ev :=
  listenTypedThenControl os network laddr

/-- Embeds `ListenIP` of the source. -/
def ListenIP (os : OsEnv) (network : String) (laddr : Option String) :
    (Option Nat × Option NetError) × List Ev :=
  listenTypedThenControl os network laddr

/-- Embeds `ListenUnix` of the source. -/
def ListenUnix (os : OsEnv) (network : String) (laddr : Option String) :
    (Option Nat × Option NetError) × List Ev :=
  listenTypedThenControl os network laddr

/-- Modelled from the spec: contract of the external `net.Dialer.Dial`
with a control hook, a local address and an optional timeout installed —
create the descriptor, invoke the hook before connecting, abort and
close the socket if the hook fails, otherwise connect (bounded by the
timeout when one is supplied); a connect failure is cleaned up by the
path itself. -/
def dialerDial (os : OsEnv)
    (ctrl : String → String → RawConn → Option NetError × List SetsockoptCall)
    (localAddr : Option Addr) (timeout : Option Nat) (network raddr : String) :
    (Option Nat × Option NetError) × List Ev :=
  match os.newConnSocket network localAddr raddr with
  | .error e => ((none, some e), [])
  | .ok fd =>
    match (ctrl network raddr (.good fd)).1 with
    | some e => ((none, some e), [.socketCreated fd, .controlInvoked fd, .socketClosed fd])
    | none =>
      match os.connect fd raddr timeout with
      | some e => ((none, some e), [.socketCreated fd, .controlInvoked fd, .socketClosed fd])
      | none => ((some fd, none), [.socketCreated fd, .controlInvoked fd, .connectDone fd])

/-- Embeds `Dial` of the source: resolve the local address with
`ResolveAddr`; on failure return `(nil, fmt.Errorf("resolving local addr: %w", err))`
without touching the dialer; otherwise build a dialer with `Control`
installed and the resolved local address and dial the remote address. -/
def Dial (env : NetEnv) (os : OsEnv) (network laddr raddr : String) :
    (Option Nat × Option NetError) × List Ev :=
  match ResolveAddr env network laddr with
  | .error err => ((none, some (.wrapResolve err)), [])
  | .ok nla => dialerDial os (Control os) (some nla) none network raddr

/-- Embeds `DialTimeOut` of the source: same as `Dial` with the
caller-supplied timeout installed in the dialer. -/
def DialTimeOut (env : NetEnv) (os : OsEnv) (network laddr raddr : String) (timeout : Nat) :
    (Option Nat × Option NetError) × List Ev :=
  match ResolveAddr env network laddr with
  | .error err => ((none, some (.wrapResolve err)), [])
  | .ok nla => dialerDial os (Control os) (some nla) (some timeout) network raddr

/-- Embeds `DialTLS` of the source: resolve the local address as in
`Dial`; on success dial through `tls.DialWithDialer`, which performs the
reuse-enabled dial and then the TLS handshake, closing the connection if
the handshake fails. -/
def DialTLS (env : NetEnv) (os : OsEnv) (network laddr raddr : String) :
    (Option Nat × Option NetError) × List Ev :=
  match ResolveAddr env network laddr with
  | .error err => ((none, some (.wrapResolve err)), [])
  | .ok nla =>
    match dialerDial os (Control os) (some nla) none network raddr with
    | ((some fd, none), evs) =>
      match os.tlsHandshake fd with
      | some e => ((none, some e), evs ++ [.socketClosed fd])
      | none => ((some fd, none), evs)
    | r => r

/-- Modelled from the standard library: the `String` method of the
pointer address types `*net.TCPAddr`, `*net.UDPAddr`, `*net.IPAddr` and
`*net.UnixAddr` renders a nil receiver as the literal string `"<nil>"`
and otherwise formats the payload (formatting delegated to the render
oracle). -/
def TCPAddrString (os : OsEnv) : Option String → String
  | none => "<nil>"
  | some d => os.renderTCPAddr d

/-- Modelled from the standard library: `String` of `*net.UDPAddr`. -/
def UDPAddrString (os : OsEnv) : Option String → String
  | none => "<nil>"
  | some d => os.renderUDPAddr d

/-- Modelled from the standard library: `String` of `*net.IPAddr`. -/
def IPAddrString (os : OsEnv) : Option String → String
  | none => "<nil>"
  | some d => os.renderIPAddr d

/-- Modelled from the standard library: `String` of `*net.UnixAddr`. -/
def UnixAddrString (os : OsEnv) : Option String → String
  | none => "<nil>"
  | some d => os.renderUnixAddr d

/-- Modelled from the standard library: a `net.Addr` interface value
holding a typed nil pointer renders as `"<nil>"` through the concrete
String method; one holding a non-nil address formats its payload. -/
def netAddrString (os : OsEnv) : Option Addr → String
  | none => "<nil>"
  | some a => os.renderAddr a

/-- Embeds `DialTCP` of the source: build a dialer with `Control` and
the typed local address installed, then `d.Dial(network, raddr.String())`
— the remote endpoint is passed as its textual rendering. The second
component exposes the string handed to the dialer. -/
def DialTCP (os : OsEnv) (network : String) (laddr raddr : Option String) :
    ((Option Nat × Option NetError) × List Ev) × String :=
  let r := TCPAddrString os raddr
  (dialerDial os (Control os) (laddr.map Addr.tcp) none network r, r)

/-- Embeds `DialUDP` of the source, shaped exactly like `DialTCP`. -/
def DialUDP (os : OsEnv) (network : String) (laddr raddr : Option String) :
    ((Option Nat × Option NetError) × List Ev) × String :=
  let r := UDPAddrString os raddr
  (dialerDial os (Control os) (laddr.map Addr.udp) none network r, r)

/-- Embeds `DialTimeoutUDP` of the source: like `DialUDP` with the
caller-supplied timeout installed in the dialer. -/
def DialTimeoutUDP (os : OsEnv) (network : String) (laddr raddr : Option String)
    (timeout : Nat) : ((Option Nat × Option NetError) × List Ev) × String :=
  let r := UDPAddrString os raddr
  (dialerDial os (Control os) (laddr.map Addr.udp) (some timeout) network r, r)

/-- Embeds `DialIP` of the source, shaped exactly like `DialTCP`. -/
def DialIP (os : OsEnv) (network : String) (laddr raddr : Option String) :
    ((Option Nat × Option NetError) × List Ev) × String :=
  let r := IPAddrString os raddr
  (dialerDial os (Control os) (laddr.map Addr.ip) none network r, r)

/-- Embeds `DialUnix` of the source, shaped exactly like `DialTCP`. -/
def DialUnix (os : OsEnv) (network : String) (laddr raddr : Option String) :
    ((Option Nat × Option NetError) × List Ev) × String :=
  let r := UnixAddrString os raddr
  (dialerDial os (Control os) (laddr.map Addr.unix) none network r, r)

/-- Embeds `DialAddr` of the source: local and remote endpoints are
`net.Addr` interface values; the remote is passed to the dialer as
`raddr.String()`. -/
def DialAddr (os : OsEnv) (network : String) (laddr raddr : Option Addr) :
    ((Option Nat × Option NetError) × List Ev) × String :=
  let r := netAddrString os raddr
  (dialerDial os (Control os) laddr none network r, r)

/-- Mutable package-level state of the embedded package: its only
mutable variable is the process-wide `Enabled` flag. -/
structure PkgState where
  enabled : Bool
deriving DecidableEq

/-- Modelled from the spec: the per-platform initialization files are
not part of the sources at hand; the spec states the flag is set once
at process start based on the platform (the source initializer sets it
to `false` and per-platform initialization raises it where port-reuse
is honored). -/
def initState (platformHasReusePort : Bool) : PkgState :=
  { enabled := platformHasReusePort }

/-- State-transformer embedding of `Listen`: the Go function neither
reads nor assigns the package variable `Enabled`, so its embedding
passes the package state through untouched. -/
def ListenSt (os : OsEnv) (network address : String) (st : PkgState) :
    ((Option Nat × Option NetError) × List Ev) × PkgState :=
  (Listen os network address, st)

/-- State-transformer embedding of `ListenPacket`; no access to `Enabled`. -/
def ListenPacketSt (os : OsEnv) (network address : String) (st : PkgState) :
    ((Option Nat × Option NetError) × List Ev) × PkgState :=
  (ListenPacket os network address, st)

/-- State-transformer embedding of `ListenTCP`; no access to `Enabled`. -/
def ListenTCPSt (os : OsEnv) (network : String) (laddr : Option String) (st : PkgState) :
    ((Option Nat × Option NetError) × List Ev) × PkgState :=
  (ListenTCP os network laddr, st)

/-- State-transformer embedding of `ListenIP`; no access to `Enabled`. -/
def ListenIPSt (os : OsEnv) (network : String) (laddr : Option String) (st : PkgState) :
    ((Option Nat × Option NetError) × List Ev) × PkgState :=
  (ListenIP os network laddr, st)

/-- State-transformer embedding of `ListenUnix`; no access to `Enabled`. -/
def ListenUnixSt (os : OsEnv) (network : String) (laddr : Option String) (st : PkgState) :
    ((Option Nat × Option NetError) × List Ev) × PkgState :=
  (ListenUnix os network laddr, st)

/-- State-transformer embedding of `Dial`; no access to `Enabled`. -/
def DialSt (env : NetEnv) (os : OsEnv) (network laddr raddr : String) (st : PkgState) :
    ((Option Nat × Option NetError) × List Ev) × PkgState :=
  (Dial env os network laddr raddr, st)

/-- State-transformer embedding of `DialTimeOut`; no access to `Enabled`. -/
def DialTimeOutSt (env : NetEnv) (os : OsEnv) (network laddr raddr : String)
    (timeout : Nat) (st : PkgState) :
    ((Option Nat × Option NetError) × List Ev) × PkgState :=
  (DialTimeOut env os network laddr raddr timeout, st)

/-- State-transformer embedding of `DialTLS`; no access to `Enabled`. -/
def DialTLSSt (env : NetEnv) (os : OsEnv) (network laddr raddr : String) (st : PkgState) :
    ((Option Nat × Option NetError) × List Ev) × PkgState :=
  (DialTLS env os network laddr raddr, st)

/-- State-transformer embedding of `DialTCP`; no access to `Enabled`. -/
def DialTCPSt (os : OsEnv) (network : String) (laddr raddr : Option String) (st : PkgState) :
    (((Option Nat × Option NetError) × List Ev) × String) × PkgState :=
  (DialTCP os network laddr raddr, st)

/-- State-transformer embedding of `ResolveAddr`; no access to `Enabled`. -/
def ResolveAddrSt (env : NetEnv) (network address : String) (st : PkgState) :
    Except NetError Addr × PkgState :=
  (ResolveAddr env network address, st)

/-- State-transformer embedding of `Control`; no access to `Enabled`. -/
def ControlSt (os : OsEnv) (network address : String) (c : RawConn) (st : PkgState) :
    (Option NetError × List SetsockoptCall) × PkgState :=
  (Control os network address c, st)

/-- Concrete environment for evaluating theorems: every kernel and
library operation succeeds, sockets get descriptor 3, rendering is the
identity on payloads. -/
def okOsEnv : OsEnv where
  setsockoptInt := fun _ _ _ _ => none
  newSocket := fun _ _ => .ok 3
  newSocketTyped := fun _ _ => .ok 3
  newConnSocket := fun _ _ _ => .ok 3
  bindListen := fun _ => none
  connect := fun _ _ _ => none
  syscallConn := fun fd => .ok (.good fd)
  tlsHandshake := fun _ => none
  renderTCPAddr := fun d => d
  renderUDPAddr := fun d => d
  renderIPAddr := fun d => d
  renderUnixAddr := fun d => d
  renderAddr := fun _ => "addr"

/-- Concrete environment in which the option-set call is denied and
everything else succeeds. -/
def denyOsEnv : OsEnv :=
  { okOsEnv with setsockoptInt := fun _ _ _ _ => some (.os "denied") }

/-- Concrete resolver environment in which TCP resolution fails with a
parse error. -/
def failNetEnv : NetEnv :=
  { trivNetEnv with netResolveTCPAddr := fun _ _ => .error (.os "parse") }

/-- Event `a` occurs strictly before event `b` in the trace. -/
def occursBefore (a b : Ev) (evs : List Ev) : Prop :=
  ∃ i : Fin evs.length, ∃ j : Fin evs.length,
    (i : Nat) < (j : Nat) ∧ evs.get i = a ∧ evs.get j = b

/-- C3: an unrecognized family tag makes `ResolveAddr` fail, for every
address, with the unknown-network-family error carrying the offending
tag, and no address is returned. -/
theorem c3_unknown_family_fails (env : NetEnv) (network address : String)
    (h : network ∉ familyTags) :
    ResolveAddr env network address = .error (.unknownNetwork network) := by
  have hl : addrMapping.lookup network = none := by
    simp only [familyTags, List.mem_cons, List.not_mem_nil, or_false, not_or] at h
    obtain ⟨h1, h2, h3, h4, h5, h6, h7, h8, h9, h10, h11, h12⟩ := h
    simp [addrMapping, List.lookup,
      beq_eq_false_iff_ne.mpr h1, beq_eq_false_iff_ne.mpr h2,
      beq_eq_false_iff_ne.mpr h3, beq_eq_false_iff_ne.mpr h4,
      beq_eq_false_iff_ne.mpr h5, beq_eq_false_iff_ne.mpr h6,
      beq_eq_false_iff_ne.mpr h7, beq_eq_false_iff_ne.mpr h8,
      beq_eq_false_iff_ne.mpr h9, beq_eq_false_iff_ne.mpr h10,
      beq_eq_false_iff_ne.mpr h11, beq_eq_false_iff_ne.mpr h12]
  simp [ResolveAddr, hl]

/-- Witness for C3 at the concrete unsupported tag `sctp`. -/
theorem c3_unknown_family_fails_witness :
    "sctp" ∉ familyTags ∧
      ResolveAddr trivNetEnv "sctp" "1.2.3.4:5" =
        .error (.unknownNetwork "sctp") :=
  ⟨by decide, c3_unknown_family_fails trivNetEnv "sctp" "1.2.3.4:5" (by decide)⟩

/-- C4: whenever `ResolveAddr` succeeds, the returned address has the
concrete type of the strategy the family tag is mapped to — never a
different family group. -/
theorem c4_resolved_type_matches_family (env : NetEnv) (network address : String)
    (st : ResolveStrategy) (a : Addr)
    (hst : addrMapping.lookup network = some st)
    (h : ResolveAddr env network address = .ok a) :
    strategyMatches st a = true := by
  unfold ResolveAddr at h
  rw [hst] at h
  cases st with
  | ipStrat =>
    cases hx : env.netResolveIPAddr network address with
    | ok d =>
      simp only [applyStrategy, resolveIPAddr, hx, Except.map] at h
      cases h
      rfl
    | error e =>
      simp only [applyStrategy, resolveIPAddr, hx, Except.map] at h
      cases h
  | tcpStrat =>
    cases hx : env.netResolveTCPAddr network address with
    | ok d =>
      simp only [applyStrategy, resolveTCPAddr, hx, Except.map] at h
      cases h
      rfl
    | error e =>
      simp only [applyStrategy, resolveTCPAddr, hx, Except.map] at h
      cases h
  | udpStrat =>
    cases hx : env.netResolveUDPAddr network address with
    | ok d =>
      simp only [applyStrategy, resolveUDPAddr, hx, Except.map] at h
      cases h
      rfl
    | error e =>
      simp only [applyStrategy, resolveUDPAddr, hx, Except.map] at h
      cases h
  | unixStrat =>
    cases hx : env.netResolveUnixAddr network address with
    | ok d =>
      simp only [applyStrategy, resolveUnixAddr, hx, Except.map] at h
      cases h
      rfl
    | error e =>
      simp only [applyStrategy, resolveUnixAddr, hx, Except.map] at h
      cases h

/-- Witness for C4 at the concrete tag `tcp` with the empty address. -/
theorem c4_resolved_type_matches_family_witness :
    strategyMatches ResolveStrategy.tcpStrat (Addr.tcp "") = true :=
  c4_resolved_type_matches_family trivNetEnv "tcp" "" ResolveStrategy.tcpStrat
    (Addr.tcp "") (by decide) rfl

/-- C7: the three tags of each family group are mapped to the identical
resolution strategy, and resolving under any tag of a group runs the
shared strategy function, the tag itself being the only difference
passed on to it. -/
theorem c7_groups_share_strategy :
    (addrMapping.lookup "tcp" = some ResolveStrategy.tcpStrat
      ∧ addrMapping.lookup "tcp4" = some ResolveStrategy.tcpStrat
      ∧ addrMapping.lookup "tcp6" = some ResolveStrategy.tcpStrat)
    ∧ (addrMapping.lookup "udp" = some ResolveStrategy.udpStrat
      ∧ addrMapping.lookup "udp4" = some ResolveStrategy.udpStrat
      ∧ addrMapping.lookup "udp6" = some ResolveStrategy.udpStrat)
    ∧ (addrMapping.lookup "ip" = some ResolveStrategy.ipStrat
      ∧ addrMapping.lookup "ip4" = some ResolveStrategy.ipStrat
      ∧ addrMapping.lookup "ip6" = some ResolveStrategy.ipStrat)
    ∧ (addrMapping.lookup "unix" = some ResolveStrategy.unixStrat
      ∧ addrMapping.lookup "unixgram" = some ResolveStrategy.unixStrat
      ∧ addrMapping.lookup "unixpacket" = some ResolveStrategy.unixStrat)
    ∧ ∀ (env : NetEnv) (address : String),
        (ResolveAddr env "tcp" address = resolveTCPAddr env "tcp" address
          ∧ ResolveAddr env "tcp4" address = resolveTCPAddr env "tcp4" address
          ∧ ResolveAddr env "tcp6" address = resolveTCPAddr env "tcp6" address)
        ∧ (ResolveAddr env "udp" address = resolveUDPAddr env "udp" address
          ∧ ResolveAddr env "udp4" address = resolveUDPAddr env "udp4" address
          ∧ ResolveAddr env "udp6" address = resolveUDPAddr env "udp6" address)
        ∧ (ResolveAddr env "ip" address = resolveIPAddr env "ip" address
          ∧ ResolveAddr env "ip4" address = resolveIPAddr env "ip4" address
          ∧ ResolveAddr env "ip6" address = resolveIPAddr env "ip6" address)
        ∧ (ResolveAddr env "unix" address = resolveUnixAddr env "unix" address
          ∧ ResolveAddr env "unixgram" address = resolveUnixAddr env "unixgram" address
          ∧ ResolveAddr env "unixpacket" address = resolveUnixAddr env "unixpacket" address) := by
  refine ⟨⟨by decide, by decide, by decide⟩, ⟨by decide, by decide, by decide⟩,
    ⟨by decide, by decide, by decide⟩, ⟨by decide, by decide, by decide⟩,
    fun env address => ⟨⟨rfl, rfl, rfl⟩, ⟨rfl, rfl, rfl⟩, ⟨rfl, rfl, rfl⟩, ⟨rfl, rfl, rfl⟩⟩⟩

/-- C6: whenever the raw descriptor is reachable, `Control` performs
exactly one option-set call, setting address-reuse (`SO_REUSEADDR`) to 1
at socket level, and returns the error of that call; when the descriptor is
not reachable it returns the error of the handle, having attempted nothing;
it returns nil exactly when the descriptor was reached and the
option-set call succeeded. -/
theorem c6_control_sets_reuseaddr (os : OsEnv) (network address : String) (c : RawConn) :
    (∀ fd, c = .good fd →
        Control os network address c =
          (os.setsockoptInt fd SOL_SOCKET SO_REUSEADDR 1,
            [⟨fd, SOL_SOCKET, SO_REUSEADDR, 1⟩]))
    ∧ (∀ e, c = .bad e → Control os network address c = (some e, []))
    ∧ ((Control os network address c).1 = none ↔
        ∃ fd, c = .good fd ∧ os.setsockoptInt fd SOL_SOCKET SO_REUSEADDR 1 = none) := by
  refine ⟨?_, ?_, ?_⟩ <;> cases c <;> simp [Control]

/-- Witness for C6 at a concrete reachable descriptor in the
all-succeeding environment. -/
theorem c6_control_sets_reuseaddr_witness :
    Control okOsEnv "tcp" "" (RawConn.good 3) =
      (none, [⟨3, SOL_SOCKET, SO_REUSEADDR, 1⟩]) := by
  have h := (c6_control_sets_reuseaddr okOsEnv "tcp" "" (RawConn.good 3)).1 3 rfl
  rw [h]
  rfl

/-- C9: `Control` is independent of its network and address string
arguments — on the same raw connection it performs the same action and
returns the same result for any two argument pairs. -/
theorem c9_control_ignores_strings (os : OsEnv) (n1 a1 n2 a2 : String) (c : RawConn) :
    Control os n1 a1 c = Control os n2 a2 c := by
  cases c <;> rfl

/-- C5: in each string-address dial variant, a resolution failure makes
the call return no connection and an error wrapping the resolver
diagnostic, with an empty socket trace — no descriptor is ever created. -/
theorem c5_resolution_precedes_socket (env : NetEnv) (os : OsEnv)
    (network laddr raddr : String) (timeout : Nat) (e : NetError)
    (h : ResolveAddr env network laddr = .error e) :
    Dial env os network laddr raddr = ((none, some (.wrapResolve e)), [])
    ∧ DialTimeOut env os network laddr raddr timeout = ((none, some (.wrapResolve e)), [])
    ∧ DialTLS env os network laddr raddr = ((none, some (.wrapResolve e)), []) := by
  refine ⟨?_, ?_, ?_⟩ <;> simp [Dial, DialTimeOut, DialTLS, h]

/-- Witness for C5 at a concrete failing resolution. -/
theorem c5_resolution_precedes_socket_witness :
    Dial failNetEnv okOsEnv "tcp" "bad" "r" =
      ((none, some (.wrapResolve (.os "parse"))), [])
    ∧ DialTimeOut failNetEnv okOsEnv "tcp" "bad" "r" 5 =
      ((none, some (.wrapResolve (.os "parse"))), [])
    ∧ DialTLS failNetEnv okOsEnv "tcp" "bad" "r" =
      ((none, some (.wrapResolve (.os "parse"))), []) :=
  c5_resolution_precedes_socket failNetEnv okOsEnv "tcp" "bad" "r" 5 (.os "parse") rfl

/-- C10: every typed dial variant hands the underlying dialer the
textual rendering of the typed remote address; a nil typed remote is
dialed as the literal string `"<nil>"`, the result being exactly the
result of the dialer on that string — no distinct nil-address rejection exists. -/
theorem c10_typed_dials_render_raddr (os : OsEnv) (network : String)
    (laddr raddr : Option String) (la ra : Option Addr) (timeout : Nat) :
    ((DialTCP os network laddr raddr).2 = TCPAddrString os raddr
      ∧ DialTCP os network laddr none =
          (dialerDial os (Control os) (laddr.map Addr.tcp) none network "<nil>", "<nil>"))
    ∧ ((DialUDP os network laddr raddr).2 = UDPAddrString os raddr
      ∧ DialUDP os network laddr none =
          (dialerDial os (Control os) (laddr.map Addr.udp) none network "<nil>", "<nil>"))
    ∧ ((DialTimeoutUDP os network laddr raddr timeout).2 = UDPAddrString os raddr
      ∧ DialTimeoutUDP os network laddr none timeout =
          (dialerDial os (Control os) (laddr.map Addr.udp) (some timeout) network "<nil>",
            "<nil>"))
    ∧ ((DialIP os network laddr raddr).2 = IPAddrString os raddr
      ∧ DialIP os network laddr none =
          (dialerDial os (Control os) (laddr.map Addr.ip) none network "<nil>", "<nil>"))
    ∧ ((DialUnix os network laddr raddr).2 = UnixAddrString os raddr
      ∧ DialUnix os network laddr none =
          (dialerDial os (Control os) (laddr.map Addr.unix) none network "<nil>", "<nil>"))
    ∧ ((DialAddr os network la ra).2 = netAddrString os ra
      ∧ DialAddr os network la none =
          (dialerDial os (Control os) la none network "<nil>", "<nil>")) :=
  ⟨⟨rfl, rfl⟩, ⟨rfl, rfl⟩, ⟨rfl, rfl⟩, ⟨rfl, rfl⟩, ⟨rfl, rfl⟩, ⟨rfl, rfl⟩⟩

/-- C8: the Enabled flag is fixed by the per-platform initialization and
no operation of the package writes to it — every entry point, embedded
as a transformer over the package state, returns the state unchanged. -/
theorem c8_enabled_constant :
    (∀ p : Bool, (initState p).enabled = p)
    ∧ (∀ os network address st, (ListenSt os network address st).2 = st)
    ∧ (∀ os network address st, (ListenPacketSt os network address st).2 = st)
    ∧ (∀ os network laddr st, (ListenTCPSt os network laddr st).2 = st)
    ∧ (∀ os network laddr st, (ListenIPSt os network laddr st).2 = st)
    ∧ (∀ os network laddr st, (ListenUnixSt os network laddr st).2 = st)
    ∧ (∀ env os network laddr raddr st, (DialSt env os network laddr raddr st).2 = st)
    ∧ (∀ env os network laddr raddr t st,
        (DialTimeOutSt env os network laddr raddr t st).2 = st)
    ∧ (∀ env os network laddr raddr st, (DialTLSSt env os network laddr raddr st).2 = st)
    ∧ (∀ os network laddr raddr st, (DialTCPSt os network laddr raddr st).2 = st)
    ∧ (∀ env network address st, (ResolveAddrSt env network address st).2 = st)
    ∧ (∀ os network address c st, (ControlSt os network address c st).2 = st) :=
  ⟨fun _ => rfl, fun _ _ _ _ => rfl, fun _ _ _ _ => rfl, fun _ _ _ _ => rfl,
    fun _ _ _ _ => rfl, fun _ _ _ _ => rfl, fun _ _ _ _ _ _ => rfl,
    fun _ _ _ _ _ _ _ => rfl, fun _ _ _ _ _ _ => rfl, fun _ _ _ _ _ => rfl,
    fun _ _ _ _ => rfl, fun _ _ _ _ _ => rfl⟩

/-- C1 counterexample: with the option-set call denied, `ListenTCP`
returns the already-created listener together with the failure, and the
socket is never closed — refuting that every listen entry point aborts
on an option-set failure without returning a socket. -/
theorem c1_counterexample_listenTCP :
    (ListenTCP denyOsEnv "tcp" none).1.1 = some 3
    ∧ (ListenTCP denyOsEnv "tcp" none).1.2 = some (.os "denied")
    ∧ Ev.socketClosed 3 ∉ (ListenTCP denyOsEnv "tcp" none).2 :=
  ⟨rfl, rfl, by decide⟩

/-- C1 amended: on the entry points that install the controller as a
creation-time hook, an option-set failure aborts creation — no listener
or connection is returned alongside an error and the standard path
closes the socket; the typed listen variants (`ListenTCP`, `ListenIP`,
`ListenUnix`) instead apply the controller to the already-created
listener and, when the option-set call fails, return the listener
together with the error, the socket left allocated. -/
theorem c1_amended_option_failure (os : OsEnv) (env : NetEnv)
    (network address laddr raddr : String) (tl : Option String) (fd : Nat)
    (conn : RawConn) (e : NetError) :
    ((Listen os network address).1.1.isSome → (Listen os network address).1.2 = none)
    ∧ ((Dial env os network laddr raddr).1.1.isSome →
        (Dial env os network laddr raddr).1.2 = none)
    ∧ (os.newSocket network address = .ok fd →
        (Control os network address (.good fd)).1 = some e →
        Listen os network address =
          ((none, some e), [.socketCreated fd, .controlInvoked fd, .socketClosed fd]))
    ∧ (netListenTyped os network tl = (.ok fd, [.socketCreated fd, .bindListenDone fd]) →
        os.syscallConn fd = .ok conn →
        (Control os network "" conn).1 = some e →
        ListenTCP os network tl =
          ((some fd, some e),
            [.socketCreated fd, .bindListenDone fd, .controlInvoked fd])
          ∧ Ev.socketClosed fd ∉ (ListenTCP os network tl).2) := by
  refine ⟨?_, ?_, ?_, ?_⟩
  · cases hn : os.newSocket network address with
    | error e2 => simp [Listen, listenConfigListen, hn]
    | ok fd2 =>
      cases hc : (Control os network address (.good fd2)).1 with
      | some e2 => simp [Listen, listenConfigListen, hn, hc]
      | none =>
        cases hb : os.bindListen fd2 with
        | some e2 => simp [Listen, listenConfigListen, hn, hc, hb]
        | none => simp [Listen, listenConfigListen, hn, hc, hb]
  · cases hr : ResolveAddr env network laddr with
    | error e2 => simp [Dial, hr]
    | ok nla =>
      cases hn : os.newConnSocket network (some nla) raddr with
      | error e2 => simp [Dial, dialerDial, hr, hn]
      | ok fd2 =>
        cases hc : (Control os network raddr (.good fd2)).1 with
        | some e2 => simp [Dial, dialerDial, hr, hn, hc]
        | none =>
          cases hk : os.connect fd2 raddr none with
          | some e2 => simp [Dial, dialerDial, hr, hn, hc, hk]
          | none => simp [Dial, dialerDial, hr, hn, hc, hk]
  · intro hn hc
    simp [Listen, listenConfigListen, hn, hc]
  · intro ht hs hc
    refine ⟨?_, ?_⟩ <;> simp [ListenTCP, listenTypedThenControl, ht, hs, hc]

/-- Witness for the amended C1 at the denying environment: the generic
`Listen` aborts and closes the socket; `ListenTCP` hands back the
listener together with the error. -/
theorem c1_amended_option_failure_witness :
    Listen denyOsEnv "tcp" "a" =
      ((none, some (.os "denied")),
        [.socketCreated 3, .controlInvoked 3, .socketClosed 3])
    ∧ ListenTCP denyOsEnv "tcp" none =
      ((some 3, some (.os "denied")),
        [.socketCreated 3, .bindListenDone 3, .controlInvoked 3]) := by
  have h := c1_amended_option_failure denyOsEnv trivNetEnv "tcp" "a" "l" "r" none 3
    (.good 3) (.os "denied")
  exact ⟨h.2.2.1 rfl rfl, (h.2.2.2 rfl rfl rfl).1⟩

/-- C2 counterexample: in the all-succeeding environment, the trace of
`ListenTCP` shows the controller invoked only after bind/listen has
completed — refuting that the controller is never invoked after
bind/listen for every entry point. -/
theorem c2_counterexample_listenTCP :
    ListenTCP okOsEnv "tcp" none =
      ((some 3, none), [.socketCreated 3, .bindListenDone 3, .controlInvoked 3])
    ∧ ¬ occursBefore (.controlInvoked 3) (.bindListenDone 3)
        (ListenTCP okOsEnv "tcp" none).2 :=
  ⟨rfl, by unfold occursBefore; decide⟩

/-- C2 amended: on the generic creation paths the controller runs after
the descriptor exists and before bind/listen or connect completes; on
the typed listen variants it runs only after the standard listen call
has completed bind/listen on the socket. -/
theorem c2_amended_control_timing (os : OsEnv) (env : NetEnv)
    (network address laddr raddr : String) (tl : Option String) (fd : Nat) :
    ((Listen os network address).1.1 = some fd →
        (Listen os network address).2 =
          [.socketCreated fd, .controlInvoked fd, .bindListenDone fd]
        ∧ occursBefore (.controlInvoked fd) (.bindListenDone fd)
            (Listen os network address).2)
    ∧ ((Dial env os network laddr raddr).1.1 = some fd →
        (Dial env os network laddr raddr).2 =
          [.socketCreated fd, .controlInvoked fd, .connectDone fd]
        ∧ occursBefore (.controlInvoked fd) (.connectDone fd)
            (Dial env os network laddr raddr).2)
    ∧ ((ListenTCP os network tl).1.1 = some fd →
        (ListenTCP os network tl).2 =
          [.socketCreated fd, .bindListenDone fd, .controlInvoked fd]
        ∧ occursBefore (.bindListenDone fd) (.controlInvoked fd)
            (ListenTCP os network tl).2) := by
  refine ⟨?_, ?_, ?_⟩
  · intro h
    have he : (Listen os network address).2 =
        [.socketCreated fd, .controlInvoked fd, .bindListenDone fd] := by
      cases hn : os.newSocket network address with
      | error e2 => simp [Listen, listenConfigListen, hn] at h
      | ok fd2 =>
        cases hc : (Control os network address (.good fd2)).1 with
        | some e2 => simp [Listen, listenConfigListen, hn, hc] at h
        | none =>
          cases hb : os.bindListen fd2 with
          | some e2 => simp [Listen, listenConfigListen, hn, hc, hb] at h
          | none =>
            simp [Listen, listenConfigListen, hn, hc, hb] at h ⊢
            simp [h]
    refine ⟨he, ?_⟩
    rw [he]
    exact ⟨⟨1, by simp⟩, ⟨2, by simp⟩, by simp, rfl, rfl⟩
  · intro h
    have he : (Dial env os network laddr raddr).2 =
        [.socketCreated fd, .controlInvoked fd, .connectDone fd] := by
      cases hr : ResolveAddr env network laddr with
      | error e2 => simp [Dial, hr] at h
      | ok nla =>
        cases hn : os.newConnSocket network (some nla) raddr with
        | error e2 => simp [Dial, dialerDial, hr, hn] at h
        | ok fd2 =>
          cases hc : (Control os network raddr (.good fd2)).1 with
          | some e2 => simp [Dial, dialerDial, hr, hn, hc] at h
          | none =>
            cases hk : os.connect fd2 raddr none with
            | some e2 => simp [Dial, dialerDial, hr, hn, hc, hk] at h
            | none =>
              simp [Dial, dialerDial, hr, hn, hc, hk] at h ⊢
              simp [h]
    refine ⟨he, ?_⟩
    rw [he]
    exact ⟨⟨1, by simp⟩, ⟨2, by simp⟩, by simp, rfl, rfl⟩
  · intro h
    have he : (ListenTCP os network tl).2 =
        [.socketCreated fd, .bindListenDone fd, .controlInvoked fd] := by
      cases ht : netListenTyped os network tl with
      | mk r evs =>
        cases r with
        | error e2 => simp [ListenTCP, listenTypedThenControl, ht] at h
        | ok fd2 =>
          cases hs : os.syscallConn fd2 with
          | error e2 => simp [ListenTCP, listenTypedThenControl, ht, hs] at h
          | ok conn =>
            have hfd : fd2 = fd := by
              simp [ListenTCP, listenTypedThenControl, ht, hs] at h
              exact h
            subst hfd
            have hevs : evs = [.socketCreated fd2, .bindListenDone fd2] := by
              cases hn : os.newSocketTyped network tl with
              | error e2 => simp [netListenTyped, hn] at ht
              | ok fd3 =>
                cases hb : os.bindListen fd3 with
                | some e2 => simp [netListenTyped, hn, hb] at ht
                | none =>
                  simp [netListenTyped, hn, hb] at ht
                  obtain ⟨h1, h2⟩ := ht
                  cases h1
                  simpa using h2.symm
            simp [ListenTCP, listenTypedThenControl, ht, hs, hevs]
    refine ⟨he, ?_⟩
    rw [he]
    exact ⟨⟨1, by simp⟩, ⟨2, by simp⟩, by simp, rfl, rfl⟩

/-- Witness for the amended C2: concrete traces in the all-succeeding
environment for the generic and the typed listen paths and the dial
path. -/
theorem c2_amended_control_timing_witness :
    occursBefore (.controlInvoked 3) (.bindListenDone 3) (Listen okOsEnv "tcp" "a").2
    ∧ occursBefore (.controlInvoked 3) (.connectDone 3)
        (Dial trivNetEnv okOsEnv "tcp" "l" "r").2
    ∧ occursBefore (.bindListenDone 3) (.controlInvoked 3)
        (ListenTCP okOsEnv "tcp" none).2 := by
  have h := c2_amended_control_timing okOsEnv trivNetEnv "tcp" "a" "l" "r" none 3
  exact ⟨(h.1 rfl).2, (h.2.1 rfl).2, (h.2.2 rfl).2⟩

end Reuse
